import Mathlib

/-!
# DS-SCN clustering: election, claim handling and domain-filter aggregation

A shallow embedding of the three applications of the repository

* `Clusterconsumer` (`DS-Clustering/clusterc.cpp`): neighbour discovery and
  the election decision,
* `Clusterproducer` (`CDS-Clustering/clusterp.cpp`): the responder for degree
  inquiries and supernode claims,
* `Supernode` (`DS-Clustering/supernode-ds.cpp`): the aggregator that merges
  the Bloom filters it receives,

followed by the properties proved about them.

Conventions.  Every `uint32_t` quantity is a `Nat`; the two counters that the
code increments (`m_answers`, `m_seq`) wrap with `u32`.  An application is a
record that carries the node it is installed on (`GetNode()`), its own
members, and a `trace` of the observable calls it made, in order.  The
sequence/RTT bookkeeping of the `Consumer` base class, the signature and
freshness metadata, the nonce and the simulator timers are the transport's
and are left out.  A function that can throw returns an `Option`; `none` is
the exception.
-/

namespace DSSCN

/-- Wrap-around of a `uint32_t` value. -/
def u32 (x : Nat) : Nat := x % 4294967296

/-! ## Node -/

/-- The application classes that the sources install on a node. -/
inductive Application where
  | Clusterconsumer
  | Clusterproducer
  | Supernode
  | SupernodeCDS
  deriving DecidableEq

/-- Modelled from the spec: the class `Node` (ns-3, extended with the
supernode role) is used by the sources but not among them.  It holds the
identity, the number of attached devices (`linkCount`), the installed
applications, the role flag (`Plain` is `false`, `Supernode` is `true`) and
the face bound to the chosen supernode. -/
structure Node where
  id : Nat
  nDevices : Nat
  applications : List Application
  isSupernode : Bool
  supernodeFace : Nat
  deriving DecidableEq

/-- `Node::GetId`. -/
def Node.GetId (n : Node) : Nat := n.id

/-- `Node::GetNDevices`. -/
def Node.GetNDevices (n : Node) : Nat := n.nDevices

/-- `Node::GetNApplications`. -/
def Node.GetNApplications (n : Node) : Nat := n.applications.length

/-- `Node::IsSupernode`. -/
def Node.IsSupernode (n : Node) : Bool := n.isSupernode

/-- `Node::AddApplication`: the new application goes to the end of the list. -/
def Node.AddApplication (n : Node) (a : Application) : Node :=
  { n with applications := n.applications ++ [a] }

/-- `Node::SetAsSupernode`. -/
def Node.SetAsSupernode (n : Node) : Node :=
  { n with isSupernode := true }

/-- `Node::SetSupernodeFace`. -/
def Node.SetSupernodeFace (n : Node) (face : Nat) : Node :=
  { n with supernodeFace := face }

/-! ## Domain filter -/

/-- Modelled from the spec: the class `bloom_filter` is used by the sources
but not among them.  A DomainFilter is a bit array of fixed capacity together
with its hash-function count and its seed. -/
structure bloom_filter where
  salt_count : Nat
  table_size : Nat
  random_seed : Nat
  bit_table : List Bool
  deriving DecidableEq

/-- Position-wise OR of a bit array with another one: bit `i` of the result is
`a[i] || b[i]`; the result has the length of the first array. -/
def orBits : List Bool → List Bool → List Bool
  | [], _ => []
  | a :: as, [] => a :: as
  | a :: as, b :: bs => (a || b) :: orBits as bs

/-- Modelled from the spec: `bloom_filter::operator|=`, the union-merge.  Two
filters of the same capacity, hash count and seed are merged by OR-ing their
bit arrays; a filter with other parameters is not merged. -/
def bloom_filter.orAssign (self f : bloom_filter) : bloom_filter :=
  if self.salt_count = f.salt_count ∧ self.table_size = f.table_size
      ∧ self.random_seed = f.random_seed then
    { self with bit_table := orBits self.bit_table f.bit_table }
  else self

/-! ## Messages -/

/-- One component of an NDN name, as far as the sources build names. -/
inductive Component where
  | localhop
  | Cluster
  | SCI
  | CII
  | IIM
  | number (n : Nat)
  | sequenceNumber (n : Nat)
  deriving DecidableEq

/-- An NDN name. -/
abbrev Name := List Component

/-- Modelled from the spec: `Component::toSequenceNumber` (ndn-cxx) is used by
the sources but not among them.  It gives the sequence number of a component
built by `appendSequenceNumber` and throws on any other component. -/
def Component.toSequenceNumber : Component → Option Nat
  | Component.sequenceNumber n => some n
  | _ => none

/-- Modelled from the spec: `Name::at(-1)` (ndn-cxx) is used by the sources
but not among them.  It gives the last component of a name and throws on the
empty name. -/
def Name.atLast (n : Name) : Option Component :=
  List.getLast? n

/-- Modelled from the spec: the class `Interest` (ndn-cxx, extended with the
clustering flags) is used by the sources but not among them.  A Request has a
name, the kind flags `CII` (DegreeInquiry) and `SCI` (SupernodeClaim), the
face carried by a claim (`getSCIFace`), the next-hop face hint and, for a
DomainInquiry, a filter. -/
structure Interest where
  name : Name
  cii : Bool
  sci : Bool
  sciFace : Nat
  nextHopFaceIdTag : Option Nat
  bf : Option bloom_filter
  deriving DecidableEq

/-- Modelled from the spec: the class `Data` (ndn-cxx, extended with the
clustering fields) is used by the sources but not among them.  A Response has
a name, the responder id (`getNodeId`), the responder face (`getFaceId`), the
reported degree (`getNeighbours`, `0` when none was set), the claim
acknowledgement flag (`isSCI`), the face of `getSCIFace` and an optional
filter payload (`hasBf`, `getBf`). -/
structure Data where
  name : Name
  nodeId : Nat
  faceId : Nat
  neighbours : Nat
  sci : Bool
  sciFace : Nat
  bf : Option bloom_filter
  deriving DecidableEq

/-- Modelled from the spec: the record `NEntry` (`neighbour.hpp`) is used by
the sources but not among them: a NeighborRecord `{nodeId, faceId,
neighborDegree}`. -/
structure NEntry where
  nodeId : Nat
  faceId : Nat
  neighbours : Nat
  deriving DecidableEq

/-- The observable calls of an application, in the order they are made: an
invocation of `Clusterconsumer::BestNeighbour`, an Interest handed to the
application link and a Data handed to the application link. -/
inductive Event where
  | BestNeighbour
  | onReceiveInterest (i : Interest)
  | onReceiveData (d : Data)
  deriving DecidableEq

/-- Number of invocations of `BestNeighbour` recorded in a trace. -/
def bestNeighbourCalls (t : List Event) : Nat :=
  t.countP (fun e => match e with
    | Event.BestNeighbour => true
    | _ => false)

/-- The Interests recorded in a trace, in order. -/
def sentInterests (t : List Event) : List Interest :=
  t.filterMap (fun e => match e with
    | Event.onReceiveInterest i => some i
    | _ => none)

/-- The Data packets recorded in a trace, in order. -/
def sentDatas (t : List Event) : List Data :=
  t.filterMap (fun e => match e with
    | Event.onReceiveData d => some d
    | _ => none)

/-! ## Clusterconsumer (clusterc.cpp) -/

/-- The members of `Clusterconsumer` (clusterc.hpp) that the election uses,
with the node the application runs on and the trace of its calls. -/
structure Clusterconsumer where
  node : Node
  m_active : Bool
  m_seq : Nat
  m_neighbours : List NEntry
  best_nId : Nat
  best_face : Nat
  best_nN : Nat
  m_answers : Nat
  trace : List Event
  deriving DecidableEq

namespace Clusterconsumer

/-- `Clusterconsumer::Clusterconsumer` on a node: no answers, no neighbours,
not yet started. -/
def create (node : Node) : Clusterconsumer :=
  { node := node, m_active := false, m_seq := 0, m_neighbours := [],
    best_nId := 0, best_face := 0, best_nN := 0, m_answers := 0, trace := [] }

/-- `Clusterconsumer::StartApplication`: the base class activates the
application, then the node's own values become the best entry. -/
def StartApplication (s : Clusterconsumer) : Clusterconsumer :=
  { s with
    m_active := true
    best_nId := s.node.GetId
    best_face := 0
    best_nN := s.node.GetNDevices }

/-- `Clusterconsumer::SendSupernode`: builds the SCI Interest, named
`/localhop/Cluster/SCI/<own id>` and tagged with `best_face` as next hop, and
hands it to the application link. -/
def SendSupernode (s : Clusterconsumer) : Clusterconsumer :=
  let interest : Interest :=
    { name := [Component.localhop, Component.Cluster, Component.SCI,
               Component.number s.node.GetId]
      cii := false
      sci := true
      sciFace := 0
      nextHopFaceIdTag := some s.best_face
      bf := none }
  { s with
    m_seq := u32 (s.m_seq + 1)
    trace := s.trace ++ [Event.onReceiveInterest interest] }

/-- `Clusterconsumer::BestNeighbour`: the election decision. -/
def BestNeighbour (s0 : Clusterconsumer) : Clusterconsumer :=
  let s := { s0 with trace := s0.trace ++ [Event.BestNeighbour] }
  if s.best_nId = s.node.GetId then
    if !s.node.IsSupernode then
      { s with
        node := ((s.node.AddApplication Application.Supernode).SetAsSupernode).SetSupernodeFace
                  s.best_face }
    else s
  else SendSupernode s

/-- Lines 230-237 of `Clusterconsumer::OnData`: count the answer, append its
record, and take it as best when its degree is strictly greater. -/
def recordAnswer (s : Clusterconsumer) (data : Data) : Clusterconsumer :=
  let s1 := { s with
    m_answers := u32 (s.m_answers + 1)
    m_neighbours := s.m_neighbours ++ [⟨data.nodeId, data.faceId, data.neighbours⟩] }
  if data.neighbours > s1.best_nN then
    { s1 with best_nId := data.nodeId, best_face := data.faceId, best_nN := data.neighbours }
  else s1

/-- Lines 241-250 of `Clusterconsumer::OnData`: once all answers are in, a
best face of `0` is replaced by the face of the Data at hand, the corrected
record goes to the front of the list, and the decision runs. -/
def completeRound (s : Clusterconsumer) (data : Data) : Clusterconsumer :=
  if s.m_answers ≥ s.node.GetNDevices then
    let s1 :=
      if s.best_face = 0 then
        { s with
          best_face := data.sciFace
          m_neighbours := ⟨s.best_nId, data.sciFace, s.best_nN⟩ :: s.m_neighbours }
      else s
    BestNeighbour s1
  else s

/-- `Clusterconsumer::OnData`. -/
def OnData (s : Clusterconsumer) (data : Data) : Clusterconsumer :=
  if !s.m_active then s
  else
    let s1 := if data.neighbours > 0 then completeRound (recordAnswer s data) data else s
    if data.sci then { s1 with node := s1.node.SetSupernodeFace data.faceId } else s1

/-- The state after `OnData` has processed the Responses `ds` in order. -/
def run (s : Clusterconsumer) (ds : List Data) : Clusterconsumer :=
  ds.foldl OnData s

/-- The number of Responses of `ds` that `OnData` counts as answers: those
reporting a degree greater than zero. -/
def answerCount (ds : List Data) : Nat :=
  ds.countP (fun d => decide (d.neighbours > 0))

end Clusterconsumer

/-! ## Clusterproducer (clusterp.cpp) -/

/-- The state of a `Clusterproducer`: the node it runs on, the activity flag
and the trace of its calls. -/
structure Clusterproducer where
  node : Node
  m_active : Bool
  trace : List Event
  deriving DecidableEq

namespace Clusterproducer

/-- The loop of lines 141-146: `isSupernode` after `nApp` rounds, each of
which sets it when the node is a supernode. -/
def isSupernodeLoop (node : Node) (nApp : Nat) : Bool :=
  (List.range nApp).foldl (fun acc _ => if node.IsSupernode then true else acc) false

/-- Lines 158-162 of `Clusterproducer::OnInterest`: the Data is encoded and
handed to the application link. -/
def transmit (p : Clusterproducer) (data : Data) : Clusterproducer :=
  { p with trace := p.trace ++ [Event.onReceiveData data] }

/-- `Clusterproducer::OnInterest`. -/
def OnInterest (p : Clusterproducer) (interest : Interest) : Clusterproducer :=
  if !p.m_active then p
  else
    let data : Data :=
      { name := interest.name, nodeId := p.node.GetId, faceId := 0, neighbours := 0,
        sci := false, sciFace := 0, bf := none }
    if interest.cii then
      transmit p { data with neighbours := p.node.GetNDevices }
    else if interest.sci then
      let data1 := { data with sci := true }
      let nApp := p.node.GetNApplications
      let isSupernode := isSupernodeLoop p.node nApp
      if isSupernode then
        transmit p data1
      else
        transmit
          { p with
            node := ((p.node.AddApplication Application.SupernodeCDS).SetAsSupernode).SetSupernodeFace
                      interest.sciFace }
          data1
    else p

end Clusterproducer

/-! ## Supernode (supernode-ds.cpp) -/

/-- The state of a `Supernode` application: the activity flag and the
DomainFilter. -/
structure Supernode where
  m_active : Bool
  domainFilter : bloom_filter
  deriving DecidableEq

namespace Supernode

/-- Line 181 of `Supernode::OnData`,
`data->getName().at(-1).toSequenceNumber()`: the sequence number in the last
component of the name of the Data; it throws when the name is empty or its
last component is not a sequence number. -/
def seqOf (data : Data) : Option Nat :=
  (Name.atLast data.name).bind Component.toSequenceNumber

/-- `Supernode::OnData`: an inactive application returns at once; otherwise
the sequence number is read from the name first, which can throw; then a Data
that has a filter is merged into the DomainFilter, and any other Data only
acknowledges its sequence number. -/
def OnData (s : Supernode) (data : Data) : Option Supernode :=
  if !s.m_active then some s
  else
    match seqOf data with
    | none => none
    | some _ =>
      match data.bf with
      | some filter => some { s with domainFilter := s.domainFilter.orAssign filter }
      | none => some s

/-- The state after `OnData` has processed the Responses `ds` in order; an
exception thrown on one of them ends the run. -/
def run (s : Supernode) : List Data → Option Supernode
  | [] => some s
  | d :: ds =>
    match OnData s d with
    | none => none
    | some s1 => run s1 ds

end Supernode

/-- Node X of the symmetric pair of the spec (scenario B): id 0, one link, the
two clustering applications installed, role Plain. -/
def pairNodeX : Node :=
  { id := 0, nDevices := 1,
    applications := [Application.Clusterconsumer, Application.Clusterproducer],
    isSupernode := false, supernodeFace := 0 }

/-- The Response of node Y (id 1, degree 1) to a DegreeInquiry of node X. -/
def pairResponseY : Data :=
  { name := [Component.CII, Component.number 0], nodeId := 1, faceId := 257,
    neighbours := 1, sci := false, sciFace := 257, bf := none }

/-- The centre of the star of the spec (scenario A): id 0, three links. -/
def starCentre : Node :=
  { id := 0, nDevices := 3,
    applications := [Application.Clusterconsumer, Application.Clusterproducer],
    isSupernode := false, supernodeFace := 0 }

/-- The Response of leaf `k` of the star (degree 1) to the centre. -/
def leafResponse (k : Nat) : Data :=
  { name := [Component.CII, Component.number 0], nodeId := k, faceId := 256 + k,
    neighbours := 1, sci := false, sciFace := 256 + k, bf := none }

/-- A leaf of the star: id 1, one link. -/
def starLeaf : Node :=
  { id := 1, nDevices := 1,
    applications := [Application.Clusterconsumer, Application.Clusterproducer],
    isSupernode := false, supernodeFace := 0 }

/-- A Response of the centre of the star (id 0, degree 3) to a leaf, arriving
through face `f`. -/
def centreResponse (f : Nat) : Data :=
  { name := [Component.CII, Component.number 1], nodeId := 0, faceId := f,
    neighbours := 3, sci := false, sciFace := f, bf := none }

/-- The SupernodeClaim that a leaf of the star sends to the centre, as the
centre receives it on face 256. -/
def leafClaim : Interest :=
  { name := [Component.localhop, Component.Cluster, Component.SCI, Component.number 1],
    cii := false, sci := true, sciFace := 256, nextHopFaceIdTag := none, bf := none }

/-- The centre of the star after its producer has handled the claim of a
leaf: already Supernode, bound to face 256. -/
def promotedCentre : Node :=
  (Clusterproducer.OnInterest { node := starCentre, m_active := true, trace := [] }
    leafClaim).node

/-- The consumer of the promoted centre at the moment the third Response has
completed its round and `BestNeighbour` is about to run: the centre is its own
best, and the face substituted for `0` is the one of the third Response. -/
def centreBeforeDecision : Clusterconsumer :=
  { node :=
      { id := 0, nDevices := 3,
        applications := [Application.Clusterconsumer, Application.Clusterproducer,
          Application.SupernodeCDS],
        isSupernode := true, supernodeFace := 256 }
    m_active := true
    m_seq := 0
    m_neighbours := [⟨0, 259, 3⟩, ⟨1, 257, 1⟩, ⟨2, 258, 1⟩, ⟨3, 259, 1⟩]
    best_nId := 0
    best_face := 259
    best_nN := 3
    m_answers := 3
    trace := [] }

/-- The consumer of a leaf of the star at the moment the Response of the
centre has completed its round and `BestNeighbour` is about to run: the centre
(id 0, reached through face 300) is the best. -/
def leafBeforeDecision : Clusterconsumer :=
  { node := starLeaf
    m_active := true
    m_seq := 0
    m_neighbours := [⟨0, 300, 3⟩]
    best_nId := 0
    best_face := 300
    best_nN := 3
    m_answers := 1
    trace := [] }

/-- A DegreeInquiry of leaf 1, as the centre receives it. -/
def leafInquiry : Interest :=
  { name := [Component.CII, Component.number 1],
    cii := true, sci := false, sciFace := 0, nextHopFaceIdTag := none, bf := none }

/-- A DomainInquiry, which is neither a DegreeInquiry nor a SupernodeClaim. -/
def domainInquiry : Interest :=
  { name := [Component.localhop, Component.IIM, Component.sequenceNumber 77],
    cii := false, sci := false, sciFace := 0, nextHopFaceIdTag := none,
    bf := some { salt_count := 2, table_size := 4, random_seed := 9,
                 bit_table := [false, false, false, false] } }

/-- A Response to a DegreeInquiry that reports degree 0. -/
def zeroResponse : Data :=
  { name := [Component.CII, Component.number 0], nodeId := 4, faceId := 262,
    neighbours := 0, sci := false, sciFace := 262, bf := none }

namespace Clusterconsumer

theorem bestNeighbour_fields (s : Clusterconsumer) :
    (BestNeighbour s).m_active = s.m_active ∧ (BestNeighbour s).m_answers = s.m_answers
      ∧ (BestNeighbour s).best_nId = s.best_nId ∧ (BestNeighbour s).best_face = s.best_face
      ∧ (BestNeighbour s).best_nN = s.best_nN
      ∧ (BestNeighbour s).m_neighbours = s.m_neighbours
      ∧ (BestNeighbour s).node.id = s.node.id
      ∧ (BestNeighbour s).node.nDevices = s.node.nDevices := by
  unfold BestNeighbour SendSupernode Node.SetSupernodeFace Node.SetAsSupernode
    Node.AddApplication
  simp only []
  split_ifs <;> simp

theorem bestNeighbour_calls (s : Clusterconsumer) :
    bestNeighbourCalls (BestNeighbour s).trace = bestNeighbourCalls s.trace + 1 := by
  unfold BestNeighbour SendSupernode bestNeighbourCalls
  simp only []
  split_ifs <;> simp [List.countP_append]

theorem recordAnswer_fields (s : Clusterconsumer) (d : Data) :
    (recordAnswer s d).m_active = s.m_active
      ∧ (recordAnswer s d).m_answers = u32 (s.m_answers + 1)
      ∧ (recordAnswer s d).node = s.node
      ∧ (recordAnswer s d).trace = s.trace
      ∧ (recordAnswer s d).best_nN = max s.best_nN d.neighbours := by
  unfold recordAnswer
  simp only []
  split_ifs with h
  · simp; omega
  · simp; omega

theorem completeRound_fields (s : Clusterconsumer) (d : Data) :
    (completeRound s d).m_active = s.m_active
      ∧ (completeRound s d).m_answers = s.m_answers
      ∧ (completeRound s d).best_nId = s.best_nId
      ∧ (completeRound s d).best_nN = s.best_nN
      ∧ (completeRound s d).node.id = s.node.id
      ∧ (completeRound s d).node.nDevices = s.node.nDevices := by
  unfold completeRound
  simp only []
  split_ifs <;> simp [bestNeighbour_fields]

theorem completeRound_calls (s : Clusterconsumer) (d : Data) :
    bestNeighbourCalls (completeRound s d).trace
      = bestNeighbourCalls s.trace + (if s.node.nDevices ≤ s.m_answers then 1 else 0) := by
  unfold completeRound Node.GetNDevices
  simp only [ge_iff_le]
  split_ifs <;> simp [bestNeighbour_calls]

theorem onData_inactive (s : Clusterconsumer) (d : Data) (h : s.m_active = false) :
    OnData s d = s := by
  simp [OnData, h]

theorem onData_fields (s : Clusterconsumer) (d : Data) (h : s.m_active = true) :
    (OnData s d).m_active = true
      ∧ (OnData s d).node.id = s.node.id
      ∧ (OnData s d).node.nDevices = s.node.nDevices
      ∧ (OnData s d).m_answers = (if 0 < d.neighbours then u32 (s.m_answers + 1) else s.m_answers)
      ∧ (OnData s d).best_nN = max s.best_nN d.neighbours
      ∧ (OnData s d).best_nId = (if s.best_nN < d.neighbours then d.nodeId else s.best_nId) := by
  have hr := recordAnswer_fields s d
  have hc := completeRound_fields (recordAnswer s d) d
  have hid : (recordAnswer s d).best_nId
      = (if s.best_nN < d.neighbours then d.nodeId else s.best_nId) := by
    unfold recordAnswer
    simp only [gt_iff_lt]
    split_ifs <;> rfl
  unfold OnData Node.SetSupernodeFace
  simp only [h, Bool.not_true, Bool.false_eq_true, if_false, gt_iff_lt]
  by_cases hp : 0 < d.neighbours
  · simp only [hp, if_true]
    split_ifs <;> simp [hc.1, hc.2.1, hc.2.2.1, hc.2.2.2.1, hc.2.2.2.2.1, hc.2.2.2.2.2,
      hr.1, hr.2.1, hr.2.2.1, hr.2.2.2.2, hid, h]
    all_goals (intro _; omega)
  · have h0 : d.neighbours = 0 := by omega
    simp only [hp, if_false]
    split_ifs <;> simp [h, h0]
    all_goals omega

theorem onData_calls (s : Clusterconsumer) (d : Data) (h : s.m_active = true) :
    bestNeighbourCalls (OnData s d).trace
      = bestNeighbourCalls s.trace
        + (if 0 < d.neighbours ∧ s.node.nDevices ≤ u32 (s.m_answers + 1) then 1 else 0) := by
  have hr := recordAnswer_fields s d
  have hc := completeRound_calls (recordAnswer s d) d
  rw [hr.2.2.1, hr.2.1, hr.2.2.2.1] at hc
  unfold OnData
  simp only [h, Bool.not_true, Bool.false_eq_true, if_false, gt_iff_lt]
  by_cases hp : 0 < d.neighbours
  · simp only [hp, if_true, true_and]
    split_ifs <;> simp_all
  · simp only [hp, if_false, false_and]
    split_ifs <;> simp

theorem run_nil (s : Clusterconsumer) : run s [] = s := rfl

theorem run_cons (s : Clusterconsumer) (d : Data) (ds : List Data) :
    run s (d :: ds) = run (OnData s d) ds := rfl

theorem run_append (s : Clusterconsumer) (ds es : List Data) :
    run s (ds ++ es) = run (run s ds) es := by
  simp [run, List.foldl_append]

theorem answerCount_cons (d : Data) (ds : List Data) :
    answerCount (d :: ds) = (if 0 < d.neighbours then 1 else 0) + answerCount ds := by
  unfold answerCount
  rw [List.countP_cons]
  by_cases hp : 0 < d.neighbours
  · simp [hp]; omega
  · simp [hp]

theorem answerCount_append (ds es : List Data) :
    answerCount (ds ++ es) = answerCount ds + answerCount es := by
  simp [answerCount, List.countP_append]

theorem run_fields (ds : List Data) :
    ∀ s : Clusterconsumer, s.m_active = true → s.m_answers < 4294967296 →
      (run s ds).m_active = true
        ∧ (run s ds).node.id = s.node.id
        ∧ (run s ds).node.nDevices = s.node.nDevices
        ∧ (run s ds).m_answers = u32 (s.m_answers + answerCount ds)
        ∧ (run s ds).best_nN = (ds.map Data.neighbours).foldl max s.best_nN := by
  induction ds with
  | nil =>
    intro s h hlt
    refine ⟨h, rfl, rfl, ?_, rfl⟩
    simp only [run_nil, answerCount, List.countP_nil, u32]
    omega
  | cons d ds ih =>
    intro s h hlt
    have hs := onData_fields s d h
    have hi := ih (OnData s d) hs.1 (by
      rw [hs.2.2.2.1]; unfold u32; split_ifs <;> omega)
    rw [run_cons]
    refine ⟨hi.1, by rw [hi.2.1, hs.2.1], by rw [hi.2.2.1, hs.2.2.1], ?_, ?_⟩
    · rw [hi.2.2.2.1, hs.2.2.2.1, answerCount_cons]
      unfold u32
      split_ifs <;> omega
    · rw [hi.2.2.2.2, hs.2.2.2.2.1]
      simp

theorem run_calls (ds : List Data) :
    ∀ s : Clusterconsumer, s.m_active = true →
      s.m_answers + answerCount ds < 4294967296 →
      bestNeighbourCalls (run s ds).trace
        = bestNeighbourCalls s.trace
          + (s.m_answers + answerCount ds - max s.m_answers (s.node.nDevices - 1)) := by
  induction ds with
  | nil =>
    intro s _ _
    simp [run_nil, answerCount]
  | cons d ds ih =>
    intro s h hlt
    have hs := onData_fields s d h
    have hc := onData_calls s d h
    rw [answerCount_cons] at hlt
    have hi := ih (OnData s d) hs.1
    rw [run_cons, answerCount_cons]
    rw [hs.2.2.2.1, hs.2.2.1, hc] at hi
    unfold u32 at hi hc
    by_cases hp : 0 < d.neighbours
    · simp only [hp, if_true, true_and] at hi hlt ⊢
      have h1 : (s.m_answers + 1) % 4294967296 = s.m_answers + 1 := by omega
      rw [h1] at hi
      rw [hi (by omega)]
      split_ifs <;> omega
    · simp only [hp, if_false, false_and] at hi hlt ⊢
      rw [hi (by omega)]
      omega

theorem foldl_max_spec (l : List Nat) :
    ∀ a : Nat, a ≤ l.foldl max a ∧ (∀ x ∈ l, x ≤ l.foldl max a)
      ∧ (l.foldl max a = a ∨ l.foldl max a ∈ l) := by
  induction l with
  | nil => intro a; simp
  | cons y ys ih =>
    intro a
    have h := ih (max a y)
    simp only [List.foldl_cons, List.mem_cons]
    refine ⟨by omega, ?_, ?_⟩
    · intro x hx
      rcases hx with rfl | hx
      · omega
      · exact h.2.1 x hx
    · rcases h.2.2 with h2 | h2
      · rw [h2]
        by_cases hle : y ≤ a
        · left; omega
        · right; left; omega
      · right; right; exact h2

theorem onData_face (s : Clusterconsumer) (d : Data) (h : s.m_active = true) :
    (OnData s d).best_face
      = (if 0 < d.neighbours ∧ s.node.nDevices ≤ u32 (s.m_answers + 1)
            ∧ (if s.best_nN < d.neighbours then d.faceId else s.best_face) = 0
         then d.sciFace
         else (if s.best_nN < d.neighbours then d.faceId else s.best_face)) := by
  have hsub : ∀ t : Clusterconsumer, (completeRound t d).best_face
      = (if t.node.nDevices ≤ t.m_answers ∧ t.best_face = 0 then d.sciFace
         else t.best_face) := by
    intro t
    unfold completeRound Node.GetNDevices
    simp only [ge_iff_le]
    split_ifs <;> simp_all [(bestNeighbour_fields _).2.2.2.1]
  have hr := recordAnswer_fields s d
  have hf : (recordAnswer s d).best_face
      = (if s.best_nN < d.neighbours then d.faceId else s.best_face) := by
    unfold recordAnswer
    simp only [gt_iff_lt]
    split_ifs <;> rfl
  unfold OnData Node.SetSupernodeFace
  simp only [h, Bool.not_true, Bool.false_eq_true, if_false, gt_iff_lt]
  by_cases hp : 0 < d.neighbours
  · simp only [hp, if_true, true_and]
    have := hsub (recordAnswer s d)
    rw [hr.2.2.1, hr.2.1, hf] at this
    split_ifs <;> simp_all
  · have h0 : d.neighbours = 0 := by omega
    simp only [hp, if_false, false_and]
    split_ifs <;> simp_all

theorem run_keep_best (ds : List Data) :
    ∀ s : Clusterconsumer, s.m_active = true →
      (∀ e ∈ ds, e.neighbours ≤ s.best_nN) →
      (run s ds).best_nId = s.best_nId
        ∧ (run s ds).best_nN = s.best_nN
        ∧ (s.best_face ≠ 0 ∨ s.m_answers + answerCount ds < s.node.nDevices →
            (run s ds).best_face = s.best_face) := by
  induction ds with
  | nil => intro s _ _; simp [run_nil]
  | cons d ds ih =>
    intro s h hle
    have hd : d.neighbours ≤ s.best_nN := hle d (List.mem_cons_self _ _)
    have hs := onData_fields s d h
    have hf := onData_face s d h
    have hnot : ¬ s.best_nN < d.neighbours := by omega
    have hN : (OnData s d).best_nN = s.best_nN := by rw [hs.2.2.2.2.1]; omega
    have hi := ih (OnData s d) hs.1 (by
      intro e he
      rw [hN]
      exact hle e (List.mem_cons_of_mem _ he))
    rw [run_cons]
    refine ⟨by rw [hi.1, hs.2.2.2.2.2, if_neg hnot], by rw [hi.2.1, hN], ?_⟩
    intro hcond
    simp only [hnot, if_false] at hf
    have hface : (OnData s d).best_face = s.best_face := by
      rw [hf]
      rcases hcond with h0 | hlt
      · simp [h0]
      · rw [answerCount_cons] at hlt
        have : ¬ (0 < d.neighbours ∧ s.node.nDevices ≤ u32 (s.m_answers + 1)
            ∧ s.best_face = 0) := by
          unfold u32
          rintro ⟨hp, hge, _⟩
          simp only [hp, if_true] at hlt
          omega
        rw [if_neg this]
    rw [hi.2.2 ?_, hface]
    rw [hface, hs.2.2.2.1, hs.2.2.1]
    rcases hcond with h0 | hlt
    · exact Or.inl h0
    · right
      rw [answerCount_cons] at hlt
      unfold u32
      split_ifs at hlt ⊢ <;> omega

theorem run_best_lt (ds : List Data) (m : Nat) :
    ∀ s : Clusterconsumer, s.m_active = true → s.best_nN < m →
      (∀ e ∈ ds, e.neighbours < m) → (run s ds).best_nN < m := by
  induction ds with
  | nil => intro s _ hlt _; simpa [run_nil] using hlt
  | cons d ds ih =>
    intro s h hlt hall
    have hs := onData_fields s d h
    have hd := hall d (List.mem_cons_self _ _)
    rw [run_cons]
    exact ih (OnData s d) hs.1 (by rw [hs.2.2.2.2.1]; omega)
      (fun e he => hall e (List.mem_cons_of_mem _ he))

theorem run_foreign_best (own self : Nat) (ds : List Data) :
    ∀ s : Clusterconsumer, s.m_active = true →
      (∀ e ∈ ds, e.nodeId ≠ self) →
      ((s.best_nN = own ∧ s.best_nId = self) ∨ (own < s.best_nN ∧ s.best_nId ≠ self)) →
      (((run s ds).best_nN = own ∧ (run s ds).best_nId = self)
        ∨ (own < (run s ds).best_nN ∧ (run s ds).best_nId ≠ self)) := by
  induction ds with
  | nil => intro s _ _ hinv; simpa [run_nil] using hinv
  | cons d ds ih =>
    intro s h hall hinv
    have hs := onData_fields s d h
    have hd := hall d (List.mem_cons_self _ _)
    rw [run_cons]
    apply ih (OnData s d) hs.1 (fun e he => hall e (List.mem_cons_of_mem _ he))
    rw [hs.2.2.2.2.1, hs.2.2.2.2.2]
    by_cases hlt : s.best_nN < d.neighbours
    · rw [if_pos hlt]
      right
      exact ⟨by rcases hinv with hi | hi <;> omega, hd⟩
    · rw [if_neg hlt]
      have : max s.best_nN d.neighbours = s.best_nN := by omega
      rw [this]
      exact hinv

end Clusterconsumer

/-! ## The election round: when the decision runs (C1, C2) -/

open Clusterconsumer

/-- C1, as stated, fails: on node X of the symmetric pair (one link) the first
Response of Y makes `m_answers` equal to the link count and invokes
`BestNeighbour`; a second Response of Y invokes it again, so over the sequence
of two Responses the decision runs twice, not once. -/
theorem C1_decision_fires_again_after_completion :
    (run (StartApplication (create pairNodeX)) [pairResponseY]).m_answers = pairNodeX.GetNDevices
      ∧ bestNeighbourCalls (run (StartApplication (create pairNodeX)) [pairResponseY]).trace = 1
      ∧ bestNeighbourCalls
          (run (StartApplication (create pairNodeX)) [pairResponseY, pairResponseY]).trace = 2 := by
  decide

/-- C1, amended: after `StartApplication`, `OnData` invokes `BestNeighbour`
while processing a Response exactly when that Response reports a degree
greater than zero and the answers counted so far, it included, are at least
the link count.  So over a sequence with `c` counted answers (fewer than
`2^32`) the decision runs `c - (nDevices - 1)` times: not before `m_answers`
reaches the link count, once on the Response that makes them equal, and once
more on every counted Response after it. -/
theorem C1_decision_fires_on_every_answer_from_completion (node : Node) (ds : List Data)
    (hc : answerCount ds < 4294967296) :
    bestNeighbourCalls (run (StartApplication (create node)) ds).trace
        = answerCount ds - (node.GetNDevices - 1)
      ∧ ∀ (pre post : List Data) (d : Data), ds = pre ++ d :: post →
          (run (StartApplication (create node)) pre).m_answers = answerCount pre
          ∧ bestNeighbourCalls (run (StartApplication (create node)) (pre ++ [d])).trace
            = bestNeighbourCalls (run (StartApplication (create node)) pre).trace
              + (if 0 < d.neighbours ∧ node.GetNDevices ≤ answerCount pre + 1 then 1 else 0) := by
  have hact : (StartApplication (create node)).m_active = true := rfl
  have hans : (StartApplication (create node)).m_answers = 0 := rfl
  have hnode : (StartApplication (create node)).node = node := rfl
  have htr : (StartApplication (create node)).trace = [] := rfl
  constructor
  · have h := run_calls ds (StartApplication (create node)) hact (by rw [hans]; omega)
    rw [h, hans, hnode, htr]
    simp [bestNeighbourCalls, Node.GetNDevices]
  · intro pre post d hds
    have hcnt : answerCount pre + (if 0 < d.neighbours then 1 else 0) ≤ answerCount ds := by
      rw [hds, answerCount_append, answerCount_cons]
      omega
    have hp := run_fields pre (StartApplication (create node)) hact (by rw [hans]; omega)
    have hm : (run (StartApplication (create node)) pre).m_answers = answerCount pre := by
      rw [hp.2.2.2.1, hans]
      unfold u32
      split_ifs at hcnt <;> omega
    refine ⟨hm, ?_⟩
    rw [run_append, run_cons, run_nil, onData_calls _ d hp.1, hm, hp.2.2.1, hnode]
    unfold u32 Node.GetNDevices
    by_cases hpos : 0 < d.neighbours
    · simp only [hpos, if_true, true_and] at hcnt ⊢
      have h1 : (answerCount pre + 1) % 4294967296 = answerCount pre + 1 := by omega
      rw [h1]
    · simp [hpos]

/-- C1, amended, at the centre of the star: with three links and four counted
Responses the decision runs twice, on the third and on the fourth. -/
theorem C1_decision_fires_on_every_answer_from_completion_witness :
    answerCount [leafResponse 1, leafResponse 2, leafResponse 3, leafResponse 1] < 4294967296
      ∧ bestNeighbourCalls (run (StartApplication (create starCentre))
          [leafResponse 1, leafResponse 2, leafResponse 3, leafResponse 1]).trace
        = answerCount [leafResponse 1, leafResponse 2, leafResponse 3, leafResponse 1]
          - (starCentre.GetNDevices - 1) :=
  ⟨by decide,
   (C1_decision_fires_on_every_answer_from_completion starCentre
      [leafResponse 1, leafResponse 2, leafResponse 3, leafResponse 1] (by decide)).1⟩

/-- C2, as stated, fails: on node X of the symmetric pair (one link), after two
Responses of Y `m_answers` is 2 and exceeds the link count 1. -/
theorem C2_answers_exceed_link_count :
    (run (StartApplication (create pairNodeX)) [pairResponseY, pairResponseY]).m_answers = 2
      ∧ ¬ (run (StartApplication (create pairNodeX)) [pairResponseY, pairResponseY]).m_answers
            ≤ (run (StartApplication (create pairNodeX))
                [pairResponseY, pairResponseY]).node.GetNDevices := by
  decide

/-- C2, amended: in every state reached from `StartApplication` by `OnData`
calls, `m_answers` is the number of Responses with a degree greater than zero
processed so far (modulo `2^32`), and the link count is still the node's; so
`m_answers` is at most the link count as long as no more such Responses were
delivered than the node has links. -/
theorem C2_answers_count_the_responses (node : Node) (ds : List Data) :
    (run (StartApplication (create node)) ds).m_answers = u32 (answerCount ds)
      ∧ (run (StartApplication (create node)) ds).node.GetNDevices = node.GetNDevices
      ∧ (answerCount ds ≤ node.GetNDevices →
          (run (StartApplication (create node)) ds).m_answers
            ≤ (run (StartApplication (create node)) ds).node.GetNDevices) := by
  have hact : (StartApplication (create node)).m_active = true := rfl
  have hans : (StartApplication (create node)).m_answers = 0 := rfl
  have hnode : (StartApplication (create node)).node = node := rfl
  have hp := run_fields ds (StartApplication (create node)) hact (by rw [hans]; omega)
  have hm : (run (StartApplication (create node)) ds).m_answers = u32 (answerCount ds) := by
    rw [hp.2.2.2.1, hans, Nat.zero_add]
  have hn : (run (StartApplication (create node)) ds).node.GetNDevices = node.GetNDevices := by
    unfold Node.GetNDevices
    rw [hp.2.2.1, hnode]
  refine ⟨hm, hn, ?_⟩
  intro hle
  rw [hm, hn]
  unfold u32
  omega

/-- C2, amended, at the centre of the star: three Responses, three links. -/
theorem C2_answers_count_the_responses_witness :
    answerCount [leafResponse 1, leafResponse 2, leafResponse 3] ≤ starCentre.GetNDevices
      ∧ (run (StartApplication (create starCentre))
            [leafResponse 1, leafResponse 2, leafResponse 3]).m_answers
          ≤ (run (StartApplication (create starCentre))
              [leafResponse 1, leafResponse 2, leafResponse 3]).node.GetNDevices :=
  ⟨by decide,
   (C2_answers_count_the_responses starCentre
      [leafResponse 1, leafResponse 2, leafResponse 3]).2.2 (by decide)⟩

/-! ## Best-neighbour selection (C3) -/

/-- C3: best-neighbour selection with a strict tie-break.  After
`StartApplication` and any sequence `ds` of Responses processed by `OnData`:
`best_nN` is the maximum of the node's own degree and all reported degrees;
the node is still its own best (its id with its own degree) exactly when no
Response reported a degree strictly greater than its own, and when the
responders are other nodes `best_nId` is the node's id exactly in that case;
otherwise `best_nId` and `best_nN` are those of the earliest Response that
attains the maximum, so that a later Response of equal degree never replaces
it.  `best_face` is `0` for the node itself and the face of that earliest
Response otherwise, as long as no face has been substituted: while the round
is incomplete, and in any case when that face is not `0`. -/
theorem C3_best_is_earliest_strict_maximum (node : Node) (ds : List Data) :
    (node.GetNDevices ≤ (run (StartApplication (create node)) ds).best_nN
        ∧ (∀ d ∈ ds, d.neighbours ≤ (run (StartApplication (create node)) ds).best_nN)
        ∧ ((run (StartApplication (create node)) ds).best_nN = node.GetNDevices
            ∨ ∃ d ∈ ds, d.neighbours = (run (StartApplication (create node)) ds).best_nN))
      ∧ (((run (StartApplication (create node)) ds).best_nId = node.GetId
            ∧ (run (StartApplication (create node)) ds).best_nN = node.GetNDevices)
          ↔ ∀ d ∈ ds, ¬ d.neighbours > node.GetNDevices)
      ∧ ((∀ d ∈ ds, ¬ d.neighbours > node.GetNDevices) →
          answerCount ds < node.GetNDevices →
          (run (StartApplication (create node)) ds).best_face = 0)
      ∧ ((∀ d ∈ ds, d.nodeId ≠ node.GetId) →
          ((run (StartApplication (create node)) ds).best_nId = node.GetId
            ↔ ∀ d ∈ ds, ¬ d.neighbours > node.GetNDevices))
      ∧ (∀ (pre post : List Data) (d : Data), ds = pre ++ d :: post →
          d.neighbours > node.GetNDevices →
          (∀ e ∈ pre, e.neighbours < d.neighbours) →
          (∀ e ∈ post, e.neighbours ≤ d.neighbours) →
          (run (StartApplication (create node)) ds).best_nId = d.nodeId
            ∧ (run (StartApplication (create node)) ds).best_nN = d.neighbours
            ∧ (d.faceId ≠ 0 ∨ answerCount ds < node.GetNDevices →
                (run (StartApplication (create node)) ds).best_face = d.faceId)) := by
  have hact : (StartApplication (create node)).m_active = true := rfl
  have hans : (StartApplication (create node)).m_answers = 0 := rfl
  have hnode : (StartApplication (create node)).node = node := rfl
  have hbN : (StartApplication (create node)).best_nN = node.nDevices := rfl
  have hbI : (StartApplication (create node)).best_nId = node.id := rfl
  have hbF : (StartApplication (create node)).best_face = 0 := rfl
  have hp := run_fields ds (StartApplication (create node)) hact (by rw [hans]; omega)
  have hmax := foldl_max_spec (ds.map Data.neighbours) node.nDevices
  rw [← hbN, ← hp.2.2.2.2] at hmax
  rw [hbN] at hmax
  have hkeep : (∀ d ∈ ds, ¬ d.neighbours > node.GetNDevices) →
      (run (StartApplication (create node)) ds).best_nId = node.id
        ∧ (run (StartApplication (create node)) ds).best_nN = node.nDevices
        ∧ (answerCount ds < node.nDevices →
            (run (StartApplication (create node)) ds).best_face = 0) := by
    intro hall
    have hk := run_keep_best ds (StartApplication (create node)) hact (by
      intro e he
      have := hall e he
      rw [hbN]
      unfold Node.GetNDevices at this
      omega)
    refine ⟨by rw [hk.1, hbI], by rw [hk.2.1, hbN], ?_⟩
    intro hlt
    rw [hk.2.2 (Or.inr (by rw [hans, hnode]; omega)), hbF]
  have hall_of : (run (StartApplication (create node)) ds).best_nN = node.nDevices →
      ∀ d ∈ ds, ¬ d.neighbours > node.GetNDevices := by
    intro heq d hd
    have := hmax.2.1 d.neighbours (List.mem_map_of_mem _ hd)
    unfold Node.GetNDevices
    omega
  refine ⟨⟨hmax.1, ?_, ?_⟩, ⟨fun h => hall_of h.2, fun h => ⟨(hkeep h).1, (hkeep h).2.1⟩⟩,
    fun h hlt => (hkeep h).2.2 hlt, ?_, ?_⟩
  · intro d hd
    exact hmax.2.1 d.neighbours (List.mem_map_of_mem _ hd)
  · rcases hmax.2.2 with h | h
    · exact Or.inl h
    · right
      rcases List.mem_map.1 h with ⟨d, hd, hdeq⟩
      exact ⟨d, hd, hdeq⟩
  · intro hforeign
    constructor
    · intro hid
      have hinv := run_foreign_best node.nDevices node.id ds (StartApplication (create node))
        hact hforeign (Or.inl ⟨hbN, hbI⟩)
      rcases hinv with hi | hi
      · exact hall_of hi.1
      · exact absurd hid hi.2
    · intro h
      exact (hkeep h).1
  · intro pre post d hds hgt hpre hpost
    unfold Node.GetNDevices at hgt
    have hpos : 0 < d.neighbours := by omega
    have h1 := run_fields pre (StartApplication (create node)) hact (by rw [hans]; omega)
    have hlt1 := run_best_lt pre d.neighbours (StartApplication (create node)) hact
      (by rw [hbN]; omega) hpre
    have h2 := onData_fields (run (StartApplication (create node)) pre) d h1.1
    have hf2 := onData_face (run (StartApplication (create node)) pre) d h1.1
    have hN2 : (OnData (run (StartApplication (create node)) pre) d).best_nN = d.neighbours := by
      rw [h2.2.2.2.2.1]; omega
    have hk := run_keep_best post (OnData (run (StartApplication (create node)) pre) d) h2.1
      (by intro e he; rw [hN2]; exact hpost e he)
    have hrun : run (StartApplication (create node)) ds
        = run (OnData (run (StartApplication (create node)) pre) d) post := by
      rw [hds, run_append, run_cons]
    rw [hrun]
    refine ⟨by rw [hk.1, h2.2.2.2.2.2, if_pos hlt1], by rw [hk.2.1, hN2], ?_⟩
    intro hcond
    simp only [hlt1, if_true, hpos, true_and] at hf2
    rw [h1.2.2.1, h1.2.2.2.1, hans, hnode] at hf2
    have hcnt : answerCount ds = answerCount pre + 1 + answerCount post := by
      rw [hds, answerCount_append, answerCount_cons, if_pos hpos]
      omega
    have hface : (OnData (run (StartApplication (create node)) pre) d).best_face = d.faceId := by
      rw [hf2]
      rcases hcond with h0 | hlt
      · simp [h0]
      · have : ¬ (node.nDevices ≤ u32 (u32 (0 + answerCount pre) + 1) ∧ d.faceId = 0) := by
          unfold u32 Node.GetNDevices at *
          rintro ⟨hge, _⟩
          omega
        rw [if_neg this]
    rw [hk.2.2 ?_, hface]
    rw [hface, h2.2.2.2.1, h2.2.2.1, if_pos hpos, h1.2.2.2.1, h1.2.2.1, hans, hnode]
    rcases hcond with h0 | hlt
    · exact Or.inl h0
    · right
      unfold u32 Node.GetNDevices at *
      omega

/-- C3 at a leaf of the star: the centre reports degree 3, a second Response
of degree 3 comes later, and the first one stays the best. -/
theorem C3_best_is_earliest_strict_maximum_witness :
    ((∀ d ∈ [leafResponse 7, centreResponse 300, centreResponse 301], d.nodeId ≠ starLeaf.GetId)
      ∧ ((run (StartApplication (create starLeaf))
            [leafResponse 7, centreResponse 300, centreResponse 301]).best_nId = starLeaf.GetId
          ↔ ∀ d ∈ [leafResponse 7, centreResponse 300, centreResponse 301],
              ¬ d.neighbours > starLeaf.GetNDevices))
      ∧ ((centreResponse 300).neighbours > starLeaf.GetNDevices
          ∧ (∀ e ∈ [leafResponse 7], e.neighbours < (centreResponse 300).neighbours)
          ∧ (∀ e ∈ [centreResponse 301], e.neighbours ≤ (centreResponse 300).neighbours)
          ∧ (centreResponse 300).faceId ≠ 0)
      ∧ ((run (StartApplication (create starLeaf))
            [leafResponse 7, centreResponse 300, centreResponse 301]).best_nId
            = (centreResponse 300).nodeId
          ∧ (run (StartApplication (create starLeaf))
              [leafResponse 7, centreResponse 300, centreResponse 301]).best_nN
            = (centreResponse 300).neighbours
          ∧ (run (StartApplication (create starLeaf))
              [leafResponse 7, centreResponse 300, centreResponse 301]).best_face
            = (centreResponse 300).faceId) :=
  ⟨⟨by decide,
    (C3_best_is_earliest_strict_maximum starLeaf
      [leafResponse 7, centreResponse 300, centreResponse 301]).2.2.2.1 (by decide)⟩,
   by decide,
   ((C3_best_is_earliest_strict_maximum starLeaf
      [leafResponse 7, centreResponse 300, centreResponse 301]).2.2.2.2
        [leafResponse 7] [centreResponse 301] (centreResponse 300) rfl
        (by decide) (by decide) (by decide)).1,
   ((C3_best_is_earliest_strict_maximum starLeaf
      [leafResponse 7, centreResponse 300, centreResponse 301]).2.2.2.2
        [leafResponse 7] [centreResponse 301] (centreResponse 300) rfl
        (by decide) (by decide) (by decide)).2.1,
   ((C3_best_is_earliest_strict_maximum starLeaf
      [leafResponse 7, centreResponse 300, centreResponse 301]).2.2.2.2
        [leafResponse 7] [centreResponse 301] (centreResponse 300) rfl
        (by decide) (by decide) (by decide)).2.2 (Or.inl (by decide))⟩

/-! ## Lemmas on the responder and on the filter -/

namespace Clusterproducer

theorem isSupernodeLoop_eq (node : Node) (nApp : Nat) :
    isSupernodeLoop node nApp = (decide (0 < nApp) && node.isSupernode) := by
  unfold isSupernodeLoop Node.IsSupernode
  induction nApp with
  | zero => simp
  | succ k ih =>
    rw [List.range_succ, List.foldl_append, ih]
    cases node.isSupernode <;> simp

end Clusterproducer

/-- C4: claim handling on a Plain node.  For an active producer on a node that
is not a Supernode and a SupernodeClaim (an Interest with the SCI flag that is
not a DegreeInquiry), `OnInterest` leaves the node a Supernode, with the
`SupernodeCDS` application installed after the applications it had, with
`supernodeFace` the face carried by the claim, and its trace grows by exactly
one Data, which has the SCI flag and the node's id. -/
theorem C4_claim_promotes_plain_node (p : Clusterproducer) (i : Interest)
    (hact : p.m_active = true) (hplain : p.node.IsSupernode = false)
    (hsci : i.sci = true) (hcii : i.cii = false) :
    (Clusterproducer.OnInterest p i).node.IsSupernode = true
      ∧ (Clusterproducer.OnInterest p i).node.applications
          = p.node.applications ++ [Application.SupernodeCDS]
      ∧ (Clusterproducer.OnInterest p i).node.supernodeFace = i.sciFace
      ∧ (Clusterproducer.OnInterest p i).node.GetId = p.node.GetId
      ∧ ∃ data : Data,
          (Clusterproducer.OnInterest p i).trace = p.trace ++ [Event.onReceiveData data]
            ∧ data.sci = true ∧ data.nodeId = p.node.GetId := by
  unfold Node.IsSupernode at hplain
  have hloop : Clusterproducer.isSupernodeLoop p.node p.node.GetNApplications = false := by
    rw [Clusterproducer.isSupernodeLoop_eq, hplain, Bool.and_false]
  unfold Clusterproducer.OnInterest
  simp only [hact, hcii, hsci, hloop, Bool.not_true, Bool.false_eq_true, if_false, if_true]
  refine ⟨rfl, rfl, rfl, rfl, _, rfl, rfl, rfl⟩

/-- C4 at the centre of the star: the claim of a leaf promotes it. -/
theorem C4_claim_promotes_plain_node_witness :
    (starCentre.IsSupernode = false ∧ leafClaim.sci = true ∧ leafClaim.cii = false)
      ∧ (Clusterproducer.OnInterest { node := starCentre, m_active := true, trace := [] }
            leafClaim).node.IsSupernode = true
      ∧ (Clusterproducer.OnInterest { node := starCentre, m_active := true, trace := [] }
            leafClaim).node.supernodeFace = 256 :=
  ⟨by decide,
   (C4_claim_promotes_plain_node { node := starCentre, m_active := true, trace := [] }
      leafClaim rfl (by decide) (by decide) (by decide)).1,
   (C4_claim_promotes_plain_node { node := starCentre, m_active := true, trace := [] }
      leafClaim rfl (by decide) (by decide) (by decide)).2.2.1⟩

/-- C5: idempotent promotion.  For a SupernodeClaim, an active producer that
is installed on a node which is already a Supernode leaves the whole node
(role, `supernodeFace`, installed applications) unchanged and still hands out
one Data with the SCI flag and the node's id; and from any state, handling
the same claim a second time leaves the node as the first handling left
it. -/
theorem C5_claim_on_supernode_is_idempotent (p : Clusterproducer) (i : Interest)
    (hsci : i.sci = true) (hcii : i.cii = false) :
    (p.m_active = true → p.node.IsSupernode = true →
        Application.Clusterproducer ∈ p.node.applications →
        (Clusterproducer.OnInterest p i).node = p.node
          ∧ ∃ data : Data,
              (Clusterproducer.OnInterest p i).trace = p.trace ++ [Event.onReceiveData data]
                ∧ data.sci = true ∧ data.nodeId = p.node.GetId)
      ∧ (Clusterproducer.OnInterest (Clusterproducer.OnInterest p i) i).node
          = (Clusterproducer.OnInterest p i).node := by
  have hkeep : ∀ q : Clusterproducer, q.m_active = true → q.node.isSupernode = true →
      0 < q.node.applications.length →
      Clusterproducer.OnInterest q i
        = Clusterproducer.transmit q
            { name := i.name, nodeId := q.node.GetId, faceId := 0, neighbours := 0,
              sci := true, sciFace := 0, bf := none } := by
    intro q hq hs hn
    have hloop : Clusterproducer.isSupernodeLoop q.node q.node.GetNApplications = true := by
      rw [Clusterproducer.isSupernodeLoop_eq, hs]
      simp [Node.GetNApplications, hn]
    unfold Clusterproducer.OnInterest
    simp only [hq, hcii, hsci, hloop, Bool.not_true, Bool.false_eq_true, if_false, if_true]
  constructor
  · intro hact hsup hinst
    rw [hkeep p hact hsup (List.length_pos_of_mem hinst)]
    exact ⟨rfl, _, rfl, rfl, rfl⟩
  · by_cases hact : p.m_active = true
    · by_cases hloop : Clusterproducer.isSupernodeLoop p.node p.node.GetNApplications = true
      · have h1 : Clusterproducer.OnInterest p i
            = Clusterproducer.transmit p
                { name := i.name, nodeId := p.node.GetId, faceId := 0, neighbours := 0,
                  sci := true, sciFace := 0, bf := none } := by
          unfold Clusterproducer.OnInterest
          simp only [hact, hcii, hsci, hloop, Bool.not_true, Bool.false_eq_true, if_false,
            if_true]
        rw [Clusterproducer.isSupernodeLoop_eq] at hloop
        simp only [Bool.and_eq_true, decide_eq_true_eq, Node.GetNApplications] at hloop
        rw [h1]
        rw [hkeep (Clusterproducer.transmit p
          { name := i.name, nodeId := p.node.GetId, faceId := 0, neighbours := 0,
            sci := true, sciFace := 0, bf := none }) hact hloop.2 hloop.1]
        rfl
      · have h1 : Clusterproducer.OnInterest p i
            = Clusterproducer.transmit
                { p with
                  node := ((p.node.AddApplication
                    Application.SupernodeCDS).SetAsSupernode).SetSupernodeFace i.sciFace }
                { name := i.name, nodeId := p.node.GetId, faceId := 0, neighbours := 0,
                  sci := true, sciFace := 0, bf := none } := by
          unfold Clusterproducer.OnInterest
          simp only [hact, hcii, hsci, hloop, Bool.not_true, Bool.false_eq_true, if_false,
            if_true]
        rw [h1]
        rw [hkeep (Clusterproducer.transmit
            { p with
              node := ((p.node.AddApplication
                Application.SupernodeCDS).SetAsSupernode).SetSupernodeFace i.sciFace }
            { name := i.name, nodeId := p.node.GetId, faceId := 0, neighbours := 0,
              sci := true, sciFace := 0, bf := none }) hact rfl (by
          simp [Clusterproducer.transmit, Node.AddApplication, Node.SetAsSupernode,
            Node.SetSupernodeFace])]
        rfl
    · have h0 : Clusterproducer.OnInterest p i = p := by
        unfold Clusterproducer.OnInterest
        simp [hact]
      rw [h0, h0]

/-- C5 at the promoted centre of the star: a second claim changes nothing. -/
theorem C5_claim_on_supernode_is_idempotent_witness :
    (leafClaim.sci = true ∧ leafClaim.cii = false ∧ promotedCentre.IsSupernode = true
        ∧ Application.Clusterproducer ∈ promotedCentre.applications)
      ∧ (Clusterproducer.OnInterest { node := promotedCentre, m_active := true, trace := [] }
            leafClaim).node = promotedCentre :=
  ⟨by decide,
   ((C5_claim_on_supernode_is_idempotent
      { node := promotedCentre, m_active := true, trace := [] } leafClaim
      (by decide) (by decide)).1 rfl (by decide) (by decide)).1⟩

/-! ## The election decision (C6, C7) -/

/-- C6, as stated, fails: the centre of the star was promoted by the claim of
a leaf and bound to face 256; when its own round completes it is its own best
with `best_face` 259, `BestNeighbour` runs (the state before the decision is
the one reached by `OnData`), and afterwards `supernodeFace` is still 256,
not `best_face`. -/
theorem C6_supernode_face_kept_when_already_supernode :
    run (StartApplication (create promotedCentre))
        [leafResponse 1, leafResponse 2, leafResponse 3]
      = BestNeighbour centreBeforeDecision
      ∧ centreBeforeDecision.best_nId = centreBeforeDecision.node.GetId
      ∧ (BestNeighbour centreBeforeDecision).node.supernodeFace = 256
      ∧ (BestNeighbour centreBeforeDecision).best_face = 259
      ∧ ¬ (BestNeighbour centreBeforeDecision).node.supernodeFace
            = (BestNeighbour centreBeforeDecision).best_face := by
  decide

/-- C6, amended: when `BestNeighbour` is invoked with `best_nId` equal to the
node's id, the node is a Supernode afterwards, and nothing is sent: the trace
grows by the invocation alone.  If the node was not a Supernode, the
`Supernode` application is installed once and `supernodeFace` becomes
`best_face`; if it already was one, the node is left as it was, its
`supernodeFace` included. -/
theorem C6_self_wins_promotes_once (s : Clusterconsumer) (hself : s.best_nId = s.node.GetId) :
    (BestNeighbour s).node.IsSupernode = true
      ∧ (BestNeighbour s).trace = s.trace ++ [Event.BestNeighbour]
      ∧ sentInterests (BestNeighbour s).trace = sentInterests s.trace
      ∧ (s.node.IsSupernode = false →
          (BestNeighbour s).node.supernodeFace = s.best_face
            ∧ (BestNeighbour s).node.applications
                = s.node.applications ++ [Application.Supernode])
      ∧ (s.node.IsSupernode = true → (BestNeighbour s).node = s.node) := by
  cases hsup : s.node.IsSupernode
  · have hb : BestNeighbour s
        = { s with
            trace := s.trace ++ [Event.BestNeighbour]
            node := ((s.node.AddApplication Application.Supernode).SetAsSupernode).SetSupernodeFace
                      s.best_face } := by
      unfold BestNeighbour
      simp only [hself, hsup, if_true, Bool.not_false]
    rw [hb]
    refine ⟨rfl, rfl, ?_, fun _ => ⟨rfl, rfl⟩, fun h => absurd h (by simp)⟩
    simp [sentInterests, List.filterMap_append]
  · have hb : BestNeighbour s = { s with trace := s.trace ++ [Event.BestNeighbour] } := by
      unfold BestNeighbour
      simp only [hself, hsup, if_true, Bool.not_true, Bool.false_eq_true, if_false]
    rw [hb]
    refine ⟨hsup, rfl, ?_, fun h => absurd h (by simp), fun _ => rfl⟩
    simp [sentInterests, List.filterMap_append]

/-- C6, amended, at the centre of the star when it is still Plain: it becomes
a Supernode bound to `best_face`. -/
theorem C6_self_wins_promotes_once_witness :
    ({ centreBeforeDecision with node := starCentre } : Clusterconsumer).best_nId
        = starCentre.GetId
      ∧ (BestNeighbour { centreBeforeDecision with node := starCentre }).node.IsSupernode = true
      ∧ (BestNeighbour { centreBeforeDecision with node := starCentre }).node.supernodeFace
          = 259 :=
  ⟨by decide,
   (C6_self_wins_promotes_once { centreBeforeDecision with node := starCentre }
      (by decide)).1,
   ((C6_self_wins_promotes_once { centreBeforeDecision with node := starCentre }
      (by decide)).2.2.2.1 (by decide)).1⟩

/-- C7, as stated, fails: at a leaf of the star (id 1) the centre (id 0) is the
best when `BestNeighbour` runs (the state before the decision is the one
reached by `OnData`); the one SupernodeClaim that is sent is tagged with
`best_face` 300 but is named `/localhop/Cluster/SCI/1`: the id in its name is
the leaf's own, and `best_nId` does not occur in it. -/
theorem C7_claim_names_the_sender :
    run (StartApplication (create starLeaf)) [centreResponse 300]
      = BestNeighbour leafBeforeDecision
      ∧ leafBeforeDecision.best_nId = 0
      ∧ leafBeforeDecision.node.GetId = 1
      ∧ sentInterests (BestNeighbour leafBeforeDecision).trace
          = [{ name := [Component.localhop, Component.Cluster, Component.SCI,
                        Component.number 1],
               cii := false, sci := true, sciFace := 0,
               nextHopFaceIdTag := some 300, bf := none }]
      ∧ ∀ i ∈ sentInterests (BestNeighbour leafBeforeDecision).trace,
          Component.number leafBeforeDecision.best_nId ∉ i.name := by
  decide

/-- C7, amended: when `BestNeighbour` is invoked with `best_nId` different
from the node's id, the trace grows by the invocation and exactly one
Interest: it has the SCI flag, its next-hop face tag is `best_face`, and its
name is `/localhop/Cluster/SCI/<id of the sending node>`.  The node (role,
`supernodeFace`, applications) and the best entry are unchanged; only `m_seq`
advances. -/
theorem C7_neighbour_wins_sends_one_claim (s : Clusterconsumer)
    (hother : s.best_nId ≠ s.node.GetId) :
    (BestNeighbour s).trace
        = s.trace ++ [Event.BestNeighbour, Event.onReceiveInterest
            { name := [Component.localhop, Component.Cluster, Component.SCI,
                       Component.number s.node.GetId],
              cii := false, sci := true, sciFace := 0,
              nextHopFaceIdTag := some s.best_face, bf := none }]
      ∧ (BestNeighbour s).node = s.node
      ∧ (BestNeighbour s).best_nId = s.best_nId
      ∧ (BestNeighbour s).best_face = s.best_face
      ∧ (BestNeighbour s).best_nN = s.best_nN
      ∧ (BestNeighbour s).m_seq = u32 (s.m_seq + 1) := by
  have hb : BestNeighbour s
      = SendSupernode { s with trace := s.trace ++ [Event.BestNeighbour] } := by
    unfold BestNeighbour
    simp only [hother, if_false]
  rw [hb]
  refine ⟨?_, rfl, rfl, rfl, rfl, rfl⟩
  simp [SendSupernode]

/-- C7, amended, at a leaf of the star. -/
theorem C7_neighbour_wins_sends_one_claim_witness :
    leafBeforeDecision.best_nId ≠ leafBeforeDecision.node.GetId
      ∧ (BestNeighbour leafBeforeDecision).node = leafBeforeDecision.node :=
  ⟨by decide, (C7_neighbour_wins_sends_one_claim leafBeforeDecision (by decide)).2.1⟩

/-! ## The responder (C8, C9) -/

/-- C8: the degree-inquiry responder.  For an active producer and a
DegreeInquiry (an Interest with the CII flag), the trace of `OnInterest` grows
by exactly one Data, whose degree is the node's link count and whose id is the
node's id, and the node (role, `supernodeFace`, applications) is unchanged. -/
theorem C8_degree_inquiry_answered_without_change (p : Clusterproducer) (i : Interest)
    (hact : p.m_active = true) (hcii : i.cii = true) :
    (Clusterproducer.OnInterest p i).node = p.node
      ∧ (Clusterproducer.OnInterest p i).m_active = p.m_active
      ∧ ∃ data : Data,
          (Clusterproducer.OnInterest p i).trace = p.trace ++ [Event.onReceiveData data]
            ∧ data.neighbours = p.node.GetNDevices ∧ data.nodeId = p.node.GetId := by
  have ho : Clusterproducer.OnInterest p i
      = Clusterproducer.transmit p
          { name := i.name, nodeId := p.node.GetId, faceId := 0,
            neighbours := p.node.GetNDevices, sci := false, sciFace := 0, bf := none } := by
    unfold Clusterproducer.OnInterest
    simp only [hact, hcii, Bool.not_true, Bool.false_eq_true, if_false, if_true]
  rw [ho]
  exact ⟨rfl, rfl, _, rfl, rfl, rfl⟩

/-- C8 at the centre of the star: the answer to a leaf reports degree 3. -/
theorem C8_degree_inquiry_answered_without_change_witness :
    leafInquiry.cii = true
      ∧ (Clusterproducer.OnInterest { node := starCentre, m_active := true, trace := [] }
            leafInquiry).node = starCentre :=
  ⟨by decide,
   (C8_degree_inquiry_answered_without_change
      { node := starCentre, m_active := true, trace := [] } leafInquiry rfl (by decide)).1⟩

/-- C9: silent drop.  For an Interest that is neither a DegreeInquiry nor a
SupernodeClaim, `OnInterest` returns the producer as it was: nothing is added
to the trace, so no Data is sent, and the node is unchanged. -/
theorem C9_other_requests_dropped (p : Clusterproducer) (i : Interest)
    (hcii : i.cii = false) (hsci : i.sci = false) :
    Clusterproducer.OnInterest p i = p
      ∧ sentDatas (Clusterproducer.OnInterest p i).trace = sentDatas p.trace
      ∧ (Clusterproducer.OnInterest p i).node = p.node := by
  have h : Clusterproducer.OnInterest p i = p := by
    unfold Clusterproducer.OnInterest
    simp [hcii, hsci]
  rw [h]
  exact ⟨rfl, rfl, rfl⟩

/-- C9 at the centre of the star: a DomainInquiry is dropped. -/
theorem C9_other_requests_dropped_witness :
    (domainInquiry.cii = false ∧ domainInquiry.sci = false)
      ∧ Clusterproducer.OnInterest { node := starCentre, m_active := true, trace := [] }
          domainInquiry
        = { node := starCentre, m_active := true, trace := [] } :=
  ⟨by decide,
   (C9_other_requests_dropped { node := starCentre, m_active := true, trace := [] }
      domainInquiry (by decide) (by decide)).1⟩

/-! ## The aggregator (C10) -/

namespace Clusterconsumer

theorem recordAnswer_best (s : Clusterconsumer) (d : Data) :
    (recordAnswer s d).best_nId = (if s.best_nN < d.neighbours then d.nodeId else s.best_nId)
      ∧ (recordAnswer s d).best_face
          = (if s.best_nN < d.neighbours then d.faceId else s.best_face)
      ∧ (recordAnswer s d).m_neighbours
          = s.m_neighbours ++ [⟨d.nodeId, d.faceId, d.neighbours⟩] := by
  unfold recordAnswer
  simp only [gt_iff_lt]
  split_ifs <;> exact ⟨rfl, rfl, rfl⟩

theorem completeRound_substitution (t : Clusterconsumer) (d : Data) :
    (t.node.nDevices ≤ t.m_answers → t.best_face = 0 →
        completeRound t d
          = BestNeighbour { t with
              best_face := d.sciFace
              m_neighbours := ⟨t.best_nId, d.sciFace, t.best_nN⟩ :: t.m_neighbours })
      ∧ (t.node.nDevices ≤ t.m_answers → t.best_face ≠ 0 →
          completeRound t d = BestNeighbour t)
      ∧ (¬ t.node.nDevices ≤ t.m_answers → completeRound t d = t) := by
  unfold completeRound Node.GetNDevices
  refine ⟨fun h1 h2 => ?_, fun h1 h2 => ?_, fun h1 => ?_⟩
  · simp only [ge_iff_le, h1, h2, if_true]
  · simp only [ge_iff_le, h1, h2, if_true, if_false]
  · simp only [ge_iff_le, h1, if_false]

theorem completeRound_neighbours (t : Clusterconsumer) (d : Data) :
    (completeRound t d).best_face
        = (if t.node.nDevices ≤ t.m_answers ∧ t.best_face = 0 then d.sciFace else t.best_face)
      ∧ (completeRound t d).m_neighbours
        = (if t.node.nDevices ≤ t.m_answers ∧ t.best_face = 0
           then ⟨t.best_nId, d.sciFace, t.best_nN⟩ :: t.m_neighbours
           else t.m_neighbours) := by
  have hs := completeRound_substitution t d
  by_cases h1 : t.node.nDevices ≤ t.m_answers
  · by_cases h2 : t.best_face = 0
    · rw [hs.1 h1 h2, (bestNeighbour_fields _).2.2.2.1, (bestNeighbour_fields _).2.2.2.2.2.1,
        if_pos ⟨h1, h2⟩, if_pos ⟨h1, h2⟩]
      exact ⟨rfl, rfl⟩
    · rw [hs.2.1 h1 h2, (bestNeighbour_fields _).2.2.2.1, (bestNeighbour_fields _).2.2.2.2.2.1,
        if_neg (fun h => h2 h.2), if_neg (fun h => h2 h.2)]
      exact ⟨rfl, rfl⟩
  · rw [hs.2.2 h1, if_neg (fun h => h1 h.1), if_neg (fun h => h1 h.1)]
    exact ⟨rfl, rfl⟩

theorem onData_counted (s : Clusterconsumer) (d : Data) (h : s.m_active = true)
    (hp : 0 < d.neighbours) :
    (OnData s d).best_face = (completeRound (recordAnswer s d) d).best_face
      ∧ (OnData s d).m_neighbours = (completeRound (recordAnswer s d) d).m_neighbours
      ∧ (OnData s d).m_answers = (completeRound (recordAnswer s d) d).m_answers := by
  unfold OnData
  simp only [h, Bool.not_true, Bool.false_eq_true, if_false, gt_iff_lt, hp, if_true]
  split_ifs <;> exact ⟨rfl, rfl, rfl⟩

theorem onData_uncounted (s : Clusterconsumer) (d : Data) (hp : d.neighbours = 0) :
    (OnData s d).m_answers = s.m_answers ∧ (OnData s d).m_neighbours = s.m_neighbours
      ∧ (OnData s d).best_face = s.best_face := by
  unfold OnData
  simp only [hp, gt_iff_lt, Nat.lt_irrefl, if_false]
  split_ifs <;> exact ⟨rfl, rfl, rfl⟩

end Clusterconsumer

/-! ## Response accounting (C12) -/

/-- C12, as stated, fails: at the centre of the star, active after
`StartApplication`, a Response that reports degree 0 leaves `m_answers` at 0
and the neighbour list empty; and at node X of the symmetric pair the one
Response of Y, which completes the round while `best_face` is 0, leaves two
records in the list, the corrected one of X in front of the one of Y. -/
theorem C12_zero_degree_not_counted_and_front_record_added :
    ((StartApplication (create starCentre)).m_active = true
        ∧ zeroResponse.neighbours = 0
        ∧ (StartApplication (create starCentre)).m_answers = 0
        ∧ (OnData (StartApplication (create starCentre)) zeroResponse).m_answers = 0
        ∧ (OnData (StartApplication (create starCentre)) zeroResponse).m_neighbours = [])
      ∧ ((StartApplication (create pairNodeX)).m_neighbours = []
        ∧ (OnData (StartApplication (create pairNodeX)) pairResponseY).m_neighbours
            = [⟨0, 257, 1⟩, ⟨1, 257, 1⟩]) := by
  decide

/-- C12, amended: for an active node, a Response that reports a degree
greater than zero makes `OnData` increase `m_answers` by one (modulo `2^32`)
and append the record of the responder at the end of the neighbour list, the
earlier records staying in place and in order; when that Response completes
the round while the best face is 0, the corrected best record is put in front
of the list as well.  A Response that reports degree 0 changes neither
`m_answers` nor the list. -/
theorem C12_counted_response_is_recorded (s : Clusterconsumer) (d : Data)
    (hact : s.m_active = true) :
    (0 < d.neighbours →
        (OnData s d).m_answers = u32 (s.m_answers + 1)
          ∧ (s.m_answers + 1 < 4294967296 → (OnData s d).m_answers = s.m_answers + 1)
          ∧ (¬ (s.node.GetNDevices ≤ (recordAnswer s d).m_answers
                  ∧ (recordAnswer s d).best_face = 0) →
              (OnData s d).m_neighbours
                = s.m_neighbours ++ [⟨d.nodeId, d.faceId, d.neighbours⟩])
          ∧ (s.node.GetNDevices ≤ (recordAnswer s d).m_answers
                ∧ (recordAnswer s d).best_face = 0 →
              (OnData s d).m_neighbours
                = ⟨(recordAnswer s d).best_nId, d.sciFace, (recordAnswer s d).best_nN⟩
                    :: (s.m_neighbours ++ [⟨d.nodeId, d.faceId, d.neighbours⟩])))
      ∧ (d.neighbours = 0 →
          (OnData s d).m_answers = s.m_answers
            ∧ (OnData s d).m_neighbours = s.m_neighbours) := by
  constructor
  · intro hp
    have hc := onData_counted s d hact hp
    have hr := recordAnswer_fields s d
    have hb := recordAnswer_best s d
    have hn := completeRound_neighbours (recordAnswer s d) d
    have ha : (OnData s d).m_answers = u32 (s.m_answers + 1) := by
      rw [hc.2.2, (completeRound_fields _ d).2.1, hr.2.1]
    rw [hr.2.2.1, hb.2.2] at hn
    unfold Node.GetNDevices
    refine ⟨ha, ?_, ?_, ?_⟩
    · intro hlt
      rw [ha]
      unfold u32
      omega
    · intro hno
      rw [hc.2.1, hn.2, if_neg hno]
    · intro hyes
      rw [hc.2.1, hn.2, if_pos hyes]
  · intro h0
    exact ⟨(onData_uncounted s d h0).1, (onData_uncounted s d h0).2.1⟩

/-- C12, amended, at the centre of the star: the first Response of a leaf is
counted and its record appended. -/
theorem C12_counted_response_is_recorded_witness :
    ((StartApplication (create starCentre)).m_active = true
        ∧ 0 < (leafResponse 1).neighbours
        ∧ (StartApplication (create starCentre)).m_answers + 1 < 4294967296)
      ∧ (OnData (StartApplication (create starCentre)) (leafResponse 1)).m_answers
          = (StartApplication (create starCentre)).m_answers + 1
      ∧ (OnData (StartApplication (create starCentre)) (leafResponse 1)).m_neighbours
          = (StartApplication (create starCentre)).m_neighbours
              ++ [⟨(leafResponse 1).nodeId, (leafResponse 1).faceId,
                   (leafResponse 1).neighbours⟩] :=
  ⟨by decide,
   ((C12_counted_response_is_recorded (StartApplication (create starCentre))
      (leafResponse 1) rfl).1 (by decide)).2.1 (by decide),
   ((C12_counted_response_is_recorded (StartApplication (create starCentre))
      (leafResponse 1) rfl).1 (by decide)).2.2.1 (by decide)⟩

/-! ## The late correction of face 0 (C13) -/

/-- C13, as stated, fails in its last sentence: at node X of the symmetric
pair the first Response of Y completes the round and face 0 is replaced by
257; when a second Response of Y arrives the round is complete again
(`m_answers` 2, one link), X is still the winner, but `best_face` is 257 and
not 0, so nothing is substituted and no record is put in front, although the
decision runs a second time. -/
theorem C13_winner_face_not_zero_at_later_completion :
    (recordAnswer (run (StartApplication (create pairNodeX)) [pairResponseY])
        pairResponseY).best_nId = pairNodeX.GetId
      ∧ pairNodeX.GetNDevices
          ≤ (recordAnswer (run (StartApplication (create pairNodeX)) [pairResponseY])
              pairResponseY).m_answers
      ∧ (recordAnswer (run (StartApplication (create pairNodeX)) [pairResponseY])
          pairResponseY).best_face = 257
      ∧ (run (StartApplication (create pairNodeX)) [pairResponseY, pairResponseY]).m_neighbours
          = (recordAnswer (run (StartApplication (create pairNodeX)) [pairResponseY])
              pairResponseY).m_neighbours
      ∧ (run (StartApplication (create pairNodeX)) [pairResponseY, pairResponseY]).m_neighbours
          = [⟨0, 257, 1⟩, ⟨1, 257, 1⟩, ⟨1, 257, 1⟩]
      ∧ bestNeighbourCalls
          (run (StartApplication (create pairNodeX)) [pairResponseY, pairResponseY]).trace
          = 2 := by
  decide

/-- C13, amended: let an active node process a Response `d` of degree greater
than zero that completes the round, the answer being counted and the best
entry updated first (`recordAnswer`).  If the best face is then 0, it is
replaced by the face (`getSCIFace`) carried by `d`, whoever sent `d`, the
record of the best node with that face and the best degree is put in front of
the neighbour list, all other records staying in arrival order, and the
decision runs on that state; if the best face is not 0, neither it nor the
list is altered before the decision runs.  In particular, at the first
completion after `StartApplication`, with Responses of other nodes only: when
the local node is the winner, the best face is still 0, so the substitution
applies and the record in front is the local node's own. -/
theorem C13_face_zero_substituted_at_completion (s : Clusterconsumer) (d : Data)
    (hact : s.m_active = true) (hpos : 0 < d.neighbours)
    (hdone : s.node.GetNDevices ≤ (recordAnswer s d).m_answers) :
    ((recordAnswer s d).best_face = 0 →
        completeRound (recordAnswer s d) d
            = BestNeighbour { recordAnswer s d with
                best_face := d.sciFace
                m_neighbours := ⟨(recordAnswer s d).best_nId, d.sciFace,
                                  (recordAnswer s d).best_nN⟩
                                :: (recordAnswer s d).m_neighbours }
          ∧ (OnData s d).best_face = d.sciFace
          ∧ (OnData s d).m_neighbours
              = ⟨(recordAnswer s d).best_nId, d.sciFace, (recordAnswer s d).best_nN⟩
                  :: (s.m_neighbours ++ [⟨d.nodeId, d.faceId, d.neighbours⟩]))
      ∧ ((recordAnswer s d).best_face ≠ 0 →
          completeRound (recordAnswer s d) d = BestNeighbour (recordAnswer s d)
            ∧ (OnData s d).best_face = (recordAnswer s d).best_face
            ∧ (OnData s d).m_neighbours
                = s.m_neighbours ++ [⟨d.nodeId, d.faceId, d.neighbours⟩])
      ∧ (∀ (node : Node) (pre : List Data),
          s = run (StartApplication (create node)) pre →
          answerCount pre < node.GetNDevices →
          (∀ e ∈ pre ++ [d], e.nodeId ≠ node.GetId) →
          (OnData s d).best_nId = node.GetId →
          (recordAnswer s d).best_face = 0
            ∧ (OnData s d).best_face = d.sciFace
            ∧ (OnData s d).m_neighbours
                = ⟨node.GetId, d.sciFace, node.GetNDevices⟩
                    :: (s.m_neighbours ++ [⟨d.nodeId, d.faceId, d.neighbours⟩])) := by
  have hc := onData_counted s d hact hpos
  have hb := recordAnswer_best s d
  have hr := recordAnswer_fields s d
  have hn := completeRound_neighbours (recordAnswer s d) d
  have hsub := completeRound_substitution (recordAnswer s d) d
  have hdone1 : (recordAnswer s d).node.nDevices ≤ (recordAnswer s d).m_answers := by
    rw [hr.2.2.1]; exact hdone
  have hzero : (recordAnswer s d).best_face = 0 →
      completeRound (recordAnswer s d) d
          = BestNeighbour { recordAnswer s d with
              best_face := d.sciFace
              m_neighbours := ⟨(recordAnswer s d).best_nId, d.sciFace,
                                (recordAnswer s d).best_nN⟩
                              :: (recordAnswer s d).m_neighbours }
        ∧ (OnData s d).best_face = d.sciFace
        ∧ (OnData s d).m_neighbours
            = ⟨(recordAnswer s d).best_nId, d.sciFace, (recordAnswer s d).best_nN⟩
                :: (s.m_neighbours ++ [⟨d.nodeId, d.faceId, d.neighbours⟩]) := by
    intro h0
    refine ⟨hsub.1 hdone1 h0, ?_, ?_⟩
    · rw [hc.1, hn.1, if_pos ⟨hdone1, h0⟩]
    · rw [hc.2.1, hn.2, if_pos ⟨hdone1, h0⟩, hb.2.2]
  refine ⟨hzero, ?_, ?_⟩
  · intro hne
    refine ⟨hsub.2.1 hdone1 hne, ?_, ?_⟩
    · rw [hc.1, hn.1, if_neg (fun h => hne h.2)]
    · rw [hc.2.1, hn.2, if_neg (fun h => hne h.2), hb.2.2]
  · intro node pre hs hcnt hforeign hwin
    have hstart : (StartApplication (create node)).m_active = true := rfl
    have hans : (StartApplication (create node)).m_answers = 0 := rfl
    have hnode : (StartApplication (create node)).node = node := rfl
    have hbN : (StartApplication (create node)).best_nN = node.nDevices := rfl
    have hbI : (StartApplication (create node)).best_nId = node.id := rfl
    have hbF : (StartApplication (create node)).best_face = 0 := rfl
    have hrun : run (StartApplication (create node)) (pre ++ [d]) = OnData s d := by
      rw [run_append, run_cons, run_nil, hs]
    have hinv := run_foreign_best node.nDevices node.id (pre ++ [d])
      (StartApplication (create node)) hstart hforeign (Or.inl ⟨hbN, hbI⟩)
    rw [hrun] at hinv
    have hN : (OnData s d).best_nN = node.nDevices := by
      rcases hinv with hi | hi
      · exact hi.1
      · exact absurd hwin hi.2
    have hf := run_fields (pre ++ [d]) (StartApplication (create node)) hstart
      (by rw [hans]; omega)
    have hmax := foldl_max_spec ((pre ++ [d]).map Data.neighbours) node.nDevices
    rw [← hbN, ← hf.2.2.2.2, hrun, hN] at hmax
    have hle : ∀ e ∈ pre ++ [d], e.neighbours ≤ node.nDevices := fun e he =>
      hmax.2.1 e.neighbours (List.mem_map_of_mem _ he)
    have hk := run_keep_best pre (StartApplication (create node)) hstart (by
      intro e he
      rw [hbN]
      exact hle e (List.mem_append_left _ he))
    rw [← hs] at hk
    have hsF : s.best_face = 0 := by
      rw [hk.2.2 (Or.inr (by rw [hans, hnode]; unfold Node.GetNDevices at hcnt; omega)), hbF]
    have hd : ¬ s.best_nN < d.neighbours := by
      rw [hk.2.1, hbN]
      have := hle d (List.mem_append_right _ (List.mem_singleton_self d))
      omega
    have h0 : (recordAnswer s d).best_face = 0 := by rw [hb.2.1, if_neg hd, hsF]
    have hI : (recordAnswer s d).best_nId = node.id := by rw [hb.1, if_neg hd, hk.1, hbI]
    have hNr : (recordAnswer s d).best_nN = node.nDevices := by
      rw [hr.2.2.2.2, hk.2.1, hbN]
      have := hle d (List.mem_append_right _ (List.mem_singleton_self d))
      omega
    have hz := hzero h0
    rw [hI, hNr] at hz
    exact ⟨h0, hz.2.1, hz.2.2⟩

/-- C13, amended, at the centre of the star: the third Response completes the
round, the centre is the winner, face 0 becomes 259 and the centre's own
record goes in front. -/
theorem C13_face_zero_substituted_at_completion_witness :
    ((run (StartApplication (create starCentre)) [leafResponse 1, leafResponse 2]).m_active
          = true
        ∧ 0 < (leafResponse 3).neighbours
        ∧ (run (StartApplication (create starCentre))
              [leafResponse 1, leafResponse 2]).node.GetNDevices
            ≤ (recordAnswer (run (StartApplication (create starCentre))
                [leafResponse 1, leafResponse 2]) (leafResponse 3)).m_answers
        ∧ answerCount [leafResponse 1, leafResponse 2] < starCentre.GetNDevices
        ∧ (∀ e ∈ [leafResponse 1, leafResponse 2] ++ [leafResponse 3],
            e.nodeId ≠ starCentre.GetId)
        ∧ (OnData (run (StartApplication (create starCentre))
              [leafResponse 1, leafResponse 2]) (leafResponse 3)).best_nId
            = starCentre.GetId)
      ∧ (OnData (run (StartApplication (create starCentre))
            [leafResponse 1, leafResponse 2]) (leafResponse 3)).best_face
          = (leafResponse 3).sciFace
      ∧ (OnData (run (StartApplication (create starCentre))
            [leafResponse 1, leafResponse 2]) (leafResponse 3)).m_neighbours
          = ⟨starCentre.GetId, (leafResponse 3).sciFace, starCentre.GetNDevices⟩
              :: ((run (StartApplication (create starCentre))
                    [leafResponse 1, leafResponse 2]).m_neighbours
                  ++ [⟨(leafResponse 3).nodeId, (leafResponse 3).faceId,
                       (leafResponse 3).neighbours⟩]) :=
  ⟨by decide,
   ((C13_face_zero_substituted_at_completion
      (run (StartApplication (create starCentre)) [leafResponse 1, leafResponse 2])
      (leafResponse 3) (by decide) (by decide) (by decide)).2.2
      starCentre [leafResponse 1, leafResponse 2] rfl (by decide) (by decide)
      (by decide)).2.1,
   ((C13_face_zero_substituted_at_completion
      (run (StartApplication (create starCentre)) [leafResponse 1, leafResponse 2])
      (leafResponse 3) (by decide) (by decide) (by decide)).2.2
      starCentre [leafResponse 1, leafResponse 2] rfl (by decide) (by decide)
      (by decide)).2.2⟩

end DSSCN
